import Mathlib

/-!
Shallow embedding of the session/auth and live-feed layer of the IoT
dashboard client (`src/pages/DashBoard_v2.tsx`), together with proofs of
the behavioural properties of its gateway, session controller, live feed
manager and view-state updates.  Definitions come first, theorems after.
-/

namespace IotPlatform

/-! ## Definitions -/

/-! ### Token Store

`localStorage` as used by the dashboard: the keys `accessToken`,
`refreshToken`, `isAuthenticated` and `user`.  `localStorage.clear()`
removes all of them. -/

structure Store where
  accessToken : Option String
  refreshToken : Option String
  isAuthenticated : Option String
  user : Option String
deriving DecidableEq, Repr

/-- The effect of `localStorage.clear()`. -/
def Store.clear : Store := ⟨none, none, none, none⟩

/-! ### Authenticated Request Gateway

The axios instance with its two interceptors (`DashBoard_v2.tsx`,
lines 42-93).  A request is modelled by its `_retry` flag and its
`Authorization` header; the backend's behaviour for the `n`-th issuance of
the original request is an oracle `resps : Nat → ServerResp`, and the
outcome of the (at most one) `POST /auth/refresh` call - which goes
through the plain `axios` module, not through `axiosInstance`, so it is
never itself intercepted - is an oracle
`refreshResult : Option (String × String)`. -/

structure Request where
  retry : Bool
  auth : Option String
deriving DecidableEq, Repr

/-- The request interceptor: attach `Authorization: Bearer <accessToken>`
when an access token is in the store. -/
def attachAuth (st : Store) (req : Request) : Request :=
  match st.accessToken with
  | some t => { req with auth := some ("Bearer " ++ t) }
  | none => req

/-- Backend behaviour for one issuance of the original request: a
delivered 2xx response, or an axios error carrying the HTTP status
(`none` = network error without a response). -/
inductive ServerResp where
  | ok
  | err (status : Option Nat)
deriving DecidableEq, Repr

/-- The errors a caller of `axiosInstance` can observe as a rejected
promise: the axios error of an HTTP response, the
`Error("No tokens available")` thrown when a stored token is missing, or
the rejection of the refresh call itself. -/
inductive RunError where
  | http (status : Option Nat)
  | noTokens
  | refreshFailed
deriving DecidableEq, Repr

inductive Outcome where
  | success
  | failure (e : RunError)
  | hung
deriving DecidableEq, Repr

inductive InterceptAction where
  | reject (e : RunError)
  | refreshAndRetry (req : Request)
deriving DecidableEq, Repr

structure InterceptOut where
  action : InterceptAction
  store : Store
  refreshAttempted : Bool
  navigatedHome : Bool
deriving DecidableEq, Repr

/-- The response interceptor's error branch (lines 57-92): on a `401` for
a request whose `_retry` flag is unset, set the flag, read both tokens
(throwing when one is missing), call `POST /auth/refresh`; on refresh
success persist the new tokens and re-issue the request with the new
bearer header; on any failure `localStorage.clear()` and navigate to
`/`; every other error is rejected unmodified. -/
def responseErrorInterceptor (req : Request) (status : Option Nat) (st : Store)
    (refreshResult : Option (String × String)) : InterceptOut :=
  if status = some 401 ∧ req.retry = false then
    match st.refreshToken, st.accessToken with
    | some _, some _ =>
      match refreshResult with
      | some (na, nr) =>
        ⟨.refreshAndRetry { retry := true, auth := some ("Bearer " ++ na) },
         { st with accessToken := some na, refreshToken := some nr }, true, false⟩
      | none => ⟨.reject .refreshFailed, Store.clear, true, true⟩
    | _, _ => ⟨.reject .noTokens, Store.clear, false, true⟩
  else ⟨.reject (.http status), st, false, false⟩

structure RunResult where
  outcome : Outcome
  store : Store
  refreshAttempts : Nat
  issued : List Request
  navigatedHome : Bool
deriving DecidableEq, Repr

/-- One pass of `axiosInstance(req)`: the request interceptor attaches
the bearer header, the request is issued, and an error response is
handed to the response interceptor, whose `refreshAndRetry` action
re-enters `axiosInstance` with the retried request.  The `fuel`
argument makes the recursion manifestly total; exhausting it yields the
`hung` outcome, which the retry flag provably rules out. -/
def dispatch (resps : Nat → ServerResp) (refreshResult : Option (String × String)) :
    Nat → Nat → Store → Request → RunResult
  | 0, _, st, _ => ⟨.hung, st, 0, [], false⟩
  | fuel + 1, n, st, req =>
    let req' := attachAuth st req
    match resps n with
    | .ok => ⟨.success, st, 0, [req'], false⟩
    | .err status =>
      let io := responseErrorInterceptor req' status st refreshResult
      match io.action with
      | .reject e => ⟨.failure e, io.store, cond io.refreshAttempted 1 0, [req'], io.navigatedHome⟩
      | .refreshAndRetry req2 =>
        let r := dispatch resps refreshResult fuel (n + 1) io.store req2
        ⟨r.outcome, r.store, cond io.refreshAttempted 1 0 + r.refreshAttempts,
         req' :: r.issued, io.navigatedHome || r.navigatedHome⟩

/-- A caller's request as issued by the dashboard: `_retry` unset, no
pre-set header. -/
def runRequest (resps : Nat → ServerResp) (refreshResult : Option (String × String))
    (st : Store) : RunResult :=
  dispatch resps refreshResult 2 0 st ⟨false, none⟩

/-! ### Data model

The payload records of the dashboard (`DashBoard_v2.tsx`, lines 95-150).
Numeric sensor values play no role in the verified properties and are
embedded as integers. -/

structure Alert where
  deviceId : String
  timestamp : String
  sensorType : String
  message : String
  severity : String
  value : Int
deriving DecidableEq, Repr

structure DeviceEvent where
  deviceId : String
  eventTime : String
  description : String
  eventType : String
deriving DecidableEq, Repr

structure SensorData where
  deviceId : String
  sensorType : String
  value : Int
  timestamp : String
deriving DecidableEq, Repr

structure Device where
  deviceId : String
  name : String
  location : String
  status : String
  type : String
  registeredAt : Option String
deriving DecidableEq, Repr

/-! ### View-state buffer updates

The state updates performed by the SSE `onmessage` handlers and by the
snapshot fetches (`setupAlertsSSE`, `setupEventsSSE`, `setupSensorSSE`,
`fetchRecentAlerts`, `fetchRecentEvents`). -/

/-- The alerts feed-event update,
`setAlerts((prev) => [alert, ...prev].slice(0, 50))` (line 350). -/
def sseAlertUpdate (a : Alert) (prev : List Alert) : List Alert :=
  (a :: prev).take 50

/-- The device-events feed-event update,
`setDeviceEvents((prev) => [deviceEvent, ...prev].slice(0, 50))`
(line 379). -/
def sseDeviceEventUpdate (e : DeviceEvent) (prev : List DeviceEvent) : List DeviceEvent :=
  (e :: prev).take 50

/-- JavaScript `slice(-n)`: the suffix of the last `n` elements. -/
def sliceLast (n : Nat) (l : List α) : List α :=
  l.drop (l.length - n)

/-- The sensor-history feed-event update,
`setSensorHistory((prev) => [...prev, sensorData].slice(-100))`
(line 419). -/
def sseSensorHistoryUpdate (d : SensorData) (prev : List SensorData) : List SensorData :=
  sliceLast 100 (prev ++ [d])

/-- The latest-data update in the sensor `onmessage` handler
(lines 411-416): drop any prior reading of the same sensor type, append
the new one. -/
def sseLatestDataUpdate (d : SensorData) (prev : List SensorData) : List SensorData :=
  prev.filter (fun x => x.sensorType ≠ d.sensorType) ++ [d]

/-- The snapshot update `setAlerts(res.data || [])` in
`fetchRecentAlerts` (line 498): the snapshot replaces the buffer without
truncation. -/
def fetchRecentAlertsUpdate (respData : Option (List Alert)) : List Alert :=
  respData.getD []

/-- The snapshot update `setDeviceEvents(res.data || [])` in
`fetchRecentEvents` (line 514). -/
def fetchRecentEventsUpdate (respData : Option (List DeviceEvent)) : List DeviceEvent :=
  respData.getD []

/-- A sample alert used by concrete counterexamples. -/
def sampleAlert : Alert :=
  ⟨"dev-1", "2026-01-01T00:00:00Z", "Temperature", "too hot", "high", 42⟩

/-! ### Live Feed Manager

The three `EventSource` refs (`alertsSSERef`, `sensorSSERef`,
`eventsSSERef`) and the set of open connections.  Each `new EventSource`
allocates a fresh connection id; `close()` removes that connection from
the open set.  Sensor connections carry the device id their stream is
scoped to. -/

structure Feeds where
  nextId : Nat
  openAlerts : List Nat
  openEvents : List Nat
  openSensor : List (Nat × String)
  alertsRef : Option Nat
  eventsRef : Option Nat
  sensorRef : Option Nat
deriving DecidableEq, Repr

/-- Initial state: all refs `null`, no open connections. -/
def initFeeds : Feeds := ⟨0, [], [], [], none, none, none⟩

/-- Closing (`close()`) the sensor connection with the given id. -/
def closeSensorConn (i : Nat) (l : List (Nat × String)) : List (Nat × String) :=
  l.filter (fun p => p.1 ≠ i)

/-- Closing (`close()`) the alerts/events connection with the given id. -/
def closeConn (i : Nat) (l : List Nat) : List Nat :=
  l.filter (fun j => j ≠ i)

/-- The body of `setupSensorSSE` (lines 393-432): bail out without a
selected device or an access token; otherwise close the connection
currently held by `sensorSSERef`, open a new `EventSource` for the
selected device and store it in the ref. -/
def setupSensorSSE (selectedDeviceId : String) (token : Option String) (f : Feeds) : Feeds :=
  if selectedDeviceId = "" then f
  else match token with
  | none => f
  | some _ =>
    let f1 := match f.sensorRef with
      | some i => { f with openSensor := closeSensorConn i f.openSensor }
      | none => f
    { f1 with
      openSensor := f1.openSensor ++ [(f1.nextId, selectedDeviceId)],
      sensorRef := some f1.nextId,
      nextId := f1.nextId + 1 }

/-- The cleanup function of the sensor-SSE `useEffect` (lines 319-324):
close the connection held by `sensorSSERef` and null the ref. -/
def cleanupSensorEffect (f : Feeds) : Feeds :=
  match f.sensorRef with
  | some i => { f with openSensor := closeSensorConn i f.openSensor, sensorRef := none }
  | none => f

/-- One re-run of the sensor-SSE `useEffect` (lines 313-325) after a
device-selection change: React first runs the previous effect's cleanup,
then the effect body, which calls `setupSensorSSE` when a device is
selected and the session is authenticated. -/
def sensorEffect (selectedDeviceId : String) (isAuthenticated : Bool) (token : Option String)
    (f : Feeds) : Feeds :=
  let f1 := cleanupSensorEffect f
  if selectedDeviceId ≠ "" ∧ isAuthenticated = true then
    setupSensorSSE selectedDeviceId token f1
  else f1

/-- A sequence of device selections, applied in order. -/
def runSelections (sels : List (String × Bool × Option String)) (f : Feeds) : Feeds :=
  sels.foldl (fun f s => sensorEffect s.1 s.2.1 s.2.2 f) f

/-- The invariant of the sensor feed subsystem: at most one sensor
connection is open and the ref holds it. -/
def SensorFeedInv (f : Feeds) : Prop :=
  f.openSensor.length ≤ 1 ∧ ∀ p ∈ f.openSensor, f.sensorRef = some p.1

/-! ### Logout

The teardown path: `handleLogout` (lines 567-578) and
`closeSSEConnections` (lines 434-447). -/

/-- The body of `closeSSEConnections`: close whatever each of the three
refs holds and null the refs. -/
def closeSSEConnections (f : Feeds) : Feeds :=
  { f with
    openAlerts := match f.alertsRef with
      | some i => closeConn i f.openAlerts
      | none => f.openAlerts,
    openSensor := match f.sensorRef with
      | some i => closeSensorConn i f.openSensor
      | none => f.openSensor,
    openEvents := match f.eventsRef with
      | some i => closeConn i f.openEvents
      | none => f.openEvents,
    alertsRef := none, sensorRef := none, eventsRef := none }

structure SessionState where
  feeds : Feeds
  store : Store
  isAuthenticated : Bool
  user : Option String
deriving DecidableEq, Repr

/-- The body of `handleLogout`: `POST /auth/logout` (its failure only
logged), then in the `finally` block - run unconditionally - close the
SSE connections, `localStorage.clear()`, drop authentication and the
user.  `serverLogoutOk` records whether the server call succeeded; the
result does not depend on it. -/
def handleLogout (serverLogoutOk : Bool) (s : SessionState) : SessionState :=
  { feeds := closeSSEConnections s.feeds,
    store := Store.clear,
    isAuthenticated := false,
    user := none }

/-- Every open connection is held by the corresponding ref (the live
feed manager's allocation discipline: each `EventSource` is stored in
its ref right after creation, and the previous one is closed first). -/
def RefsHeld (f : Feeds) : Prop :=
  (∀ i ∈ f.openAlerts, f.alertsRef = some i) ∧
  (∀ i ∈ f.openEvents, f.eventsRef = some i) ∧
  (∀ p ∈ f.openSensor, f.sensorRef = some p.1)

/-! ### SSE `onmessage` handlers

Each handler wraps `JSON.parse` in `try`/`catch`; a payload that is not
valid JSON is modelled as a `none` parse result, in which case the
handler only logs and changes nothing.  The handlers never close their
connection (only `onerror` does), so the `Feeds` component is carried
through unchanged. -/

structure ViewState where
  alerts : List Alert
  deviceEvents : List DeviceEvent
  latestData : List SensorData
  sensorHistory : List SensorData
deriving DecidableEq, Repr

/-- The alerts SSE `onmessage` handler (lines 347-354). -/
def alertsOnMessage (parsed : Option Alert) (s : ViewState × Feeds) : ViewState × Feeds :=
  match parsed with
  | none => s
  | some a => ({ s.1 with alerts := sseAlertUpdate a s.1.alerts }, s.2)

/-- The device-events SSE `onmessage` handler (lines 376-383). -/
def eventsOnMessage (parsed : Option DeviceEvent) (s : ViewState × Feeds) :
    ViewState × Feeds :=
  match parsed with
  | none => s
  | some e => ({ s.1 with deviceEvents := sseDeviceEventUpdate e s.1.deviceEvents }, s.2)

/-- The sensor SSE `onmessage` handler (lines 408-424). -/
def sensorOnMessage (selectedSensorType : String) (parsed : Option SensorData)
    (s : ViewState × Feeds) : ViewState × Feeds :=
  match parsed with
  | none => s
  | some sd =>
    let v1 := { s.1 with latestData := sseLatestDataUpdate sd s.1.latestData }
    if sd.sensorType = selectedSensorType then
      ({ v1 with sensorHistory := sseSensorHistoryUpdate sd v1.sensorHistory }, s.2)
    else (v1, s.2)

/-! ### Login

The login form handler `LoginPage.handleLogin` (lines 159-196). -/

/-- How one attempt of `POST /auth/login` concludes: a non-throwing
response (status, whether a body is present, and the token pair of the
body), an axios error with its optional HTTP status and optional
server-provided `message`, or a non-axios exception. -/
inductive LoginOutcome where
  | resp (status : Nat) (hasData : Bool) (tokens : String × String)
  | axiosErr (status : Option Nat) (serverMsg : Option String)
  | otherErr
deriving DecidableEq, Repr

/-- JavaScript `||` on an optional string: an absent or empty message is
falsy and falls through to the default. -/
def jsOr (m : Option String) (d : String) : String :=
  match m with
  | none => d
  | some s => if s = "" then d else s

/-- The message computed in the axios-error branch (lines 184-188):
`err.response?.data?.message || (status === 404 ? "Invalid username or
password" : "Login failed, please try again.")`. -/
def loginFailureMessage (status : Option Nat) (serverMsg : Option String) : String :=
  jsOr serverMsg
    (if status = some 404 then "Invalid username or password"
     else "Login failed, please try again.")

structure LoginState where
  store : Store
  errorMsg : String
  loggedIn : Bool
deriving DecidableEq, Repr

/-- Whether the response branch treats the attempt as a success:
`response.status === 200 && response.data`. -/
def isLoginSuccess : LoginOutcome → Bool
  | .resp status hasData _ => status == 200 && hasData
  | _ => false

/-- The body of `handleLogin`: on a 200 response with a body, store both
tokens and `isAuthenticated`, then `onLogin()` (which flips the
dashboard to authenticated); on a 200-less or bodiless response, or on
any thrown error, only set the error message. -/
def handleLogin (out : LoginOutcome) (s : LoginState) : LoginState :=
  match out with
  | .resp status hasData (a, r) =>
    if status == 200 && hasData then
      let st := { s.store with
        accessToken := some a, refreshToken := some r, isAuthenticated := some "true" }
      { store := st, errorMsg := "", loggedIn := true }
    else { s with errorMsg := "Unexpected response from server." }
  | .axiosErr status msg => { s with errorMsg := loginFailureMessage status msg }
  | .otherErr => { s with errorMsg := "Unexpected error occurred." }

/-! ### Device creation

The add-device handler `handleAddDevice` (lines 580-622). -/

structure NewDeviceForm where
  deviceId : String
  name : String
  location : String
  type : String
  status : String
deriving DecidableEq, Repr

/-- The initial `newDevice` form state (lines 266-272), restored after a
successful create. -/
def defaultNewDevice : NewDeviceForm :=
  ⟨"", "", "", "TemperatureSensor", "Active"⟩

/-- How the `POST /devices` call concludes, when it is made at all. -/
inductive AddDeviceOutcome where
  | resp (status : Nat)
  | axiosErr (status : Option Nat)
  | otherErr
deriving DecidableEq, Repr

structure DevicesPanelState where
  devices : List Device
  newDevice : NewDeviceForm
  showAddDevice : Bool
  alertMsg : Option String
  refetchCount : Nat
deriving DecidableEq, Repr

/-- The body of `handleAddDevice`: block client-side when `deviceId`,
`name` or `location` is empty; otherwise post the form and: on status
204 refetch the device list (`fetched` is what that refetch returns),
reset the form and close the panel; on any other non-error status do
nothing; on an axios error show the 409/403/other message; on a
non-axios error do nothing. -/
def handleAddDevice (out : AddDeviceOutcome) (fetched : List Device)
    (s : DevicesPanelState) : DevicesPanelState :=
  if s.newDevice.deviceId = "" ∨ s.newDevice.name = "" ∨ s.newDevice.location = "" then
    { s with alertMsg := some "Please fill all required fields" }
  else
    match out with
    | .resp status =>
      if status = 204 then
        { devices := fetched,
          newDevice := defaultNewDevice,
          showAddDevice := false,
          alertMsg := some "Device added successfully!",
          refetchCount := s.refetchCount + 1 }
      else s
    | .axiosErr status =>
      if status = some 409 then { s with alertMsg := some "Device ID already exists!" }
      else if status = some 403 then
        { s with alertMsg := some "You do not have permission to add devices!" }
      else { s with alertMsg := some "Failed to add device!" }
    | .otherErr => s

/-! ## Theorems -/

/-! ### Gateway lemmas and claims C1-C3 -/

lemma attachAuth_retry (st : Store) (req : Request) :
    (attachAuth st req).retry = req.retry := by
  unfold attachAuth
  cases st.accessToken <;> rfl

lemma responseErrorInterceptor_retried (req : Request) (status : Option Nat) (st : Store)
    (rr : Option (String × String)) (h : req.retry = true) :
    responseErrorInterceptor req status st rr = ⟨.reject (.http status), st, false, false⟩ := by
  unfold responseErrorInterceptor
  rw [if_neg]
  simp [h]

/-- A request whose `_retry` flag is already set is rejected as-is on any
error: the gateway never refreshes for it and never recurses. -/
lemma dispatch_retried (resps : Nat → ServerResp) (rr : Option (String × String))
    (fuel n : Nat) (st : Store) (req : Request) (h : req.retry = true) :
    dispatch resps rr (fuel + 1) n st req =
      match resps n with
      | .ok => ⟨.success, st, 0, [attachAuth st req], false⟩
      | .err s => ⟨.failure (.http s), st, 0, [attachAuth st req], false⟩ := by
  have h' : (attachAuth st req).retry = true := by rw [attachAuth_retry]; exact h
  cases h1 : resps n with
  | ok => simp [dispatch, h1]
  | err s => simp [dispatch, h1, responseErrorInterceptor_retried _ _ _ _ h']

/-- Claim C1: for every original request and every sequence of `401`
responses, the gateway issues at most one token-refresh attempt: a run
never hangs in a retry loop, and a request whose retried flag is already
set is never refreshed again.  (The refresh call itself is made with the
plain `axios` module and therefore never passes through the
interceptor.) -/
theorem gateway_refresh_at_most_once (resps : Nat → ServerResp)
    (rr : Option (String × String)) (st : Store) (req : Request) (fuel n : Nat)
    (hfuel : 2 ≤ fuel) :
    (dispatch resps rr fuel n st req).refreshAttempts ≤ 1 ∧
    (dispatch resps rr fuel n st req).outcome ≠ Outcome.hung ∧
    (req.retry = true → (dispatch resps rr fuel n st req).refreshAttempts = 0) := by
  obtain ⟨k, rfl⟩ : ∃ k, fuel = k + 2 := ⟨fuel - 2, by omega⟩
  obtain ⟨at_, rt, ia, u⟩ := st
  cases h1 : resps n with
  | ok => refine ⟨?_, ?_, fun _ => ?_⟩ <;> simp [dispatch, h1]
  | err status =>
    by_cases h401 : status = some 401
    · subst h401
      cases hret : req.retry with
      | true =>
        cases at_ <;>
          · refine ⟨?_, ?_, ?_⟩ <;>
              simp [dispatch, h1, responseErrorInterceptor, attachAuth, hret]
      | false =>
        cases at_ with
        | none =>
          refine ⟨?_, ?_, ?_⟩ <;>
            simp [dispatch, h1, responseErrorInterceptor, attachAuth, hret]
        | some atv =>
          cases rt with
          | none =>
            refine ⟨?_, ?_, ?_⟩ <;>
              simp [dispatch, h1, responseErrorInterceptor, attachAuth, hret]
          | some rtv =>
            cases rr with
            | none =>
              refine ⟨?_, ?_, ?_⟩ <;>
                simp [dispatch, h1, responseErrorInterceptor, attachAuth, hret]
            | some pair =>
              obtain ⟨na, nr⟩ := pair
              cases h2 : resps (n + 1) <;>
                · refine ⟨?_, ?_, ?_⟩ <;>
                    simp [dispatch, h1, h2, responseErrorInterceptor, attachAuth, hret]
    · cases at_ <;>
        · refine ⟨?_, ?_, ?_⟩ <;>
            simp [dispatch, h1, responseErrorInterceptor, attachAuth, h401]

/-- Witness for C1 at a backend that answers `401` forever. -/
theorem gateway_refresh_at_most_once_witness :
    (dispatch (fun _ => .err (some 401)) (some ("na", "nr")) 2 0
      ⟨some "a", some "r", some "true", none⟩ ⟨false, none⟩).refreshAttempts ≤ 1 ∧
    (dispatch (fun _ => .err (some 401)) (some ("na", "nr")) 2 0
      ⟨some "a", some "r", some "true", none⟩ ⟨false, none⟩).outcome ≠ Outcome.hung ∧
    ((⟨false, none⟩ : Request).retry = true →
      (dispatch (fun _ => .err (some 401)) (some ("na", "nr")) 2 0
        ⟨some "a", some "r", some "true", none⟩ ⟨false, none⟩).refreshAttempts = 0) :=
  gateway_refresh_at_most_once (fun _ => .err (some 401)) (some ("na", "nr"))
    ⟨some "a", some "r", some "true", none⟩ ⟨false, none⟩ 2 0 (by norm_num)

/-- Claim C2: when a request gets a `401` and the refresh call succeeds,
the gateway persists the new token pair, re-issues the original request
exactly once with `Authorization: Bearer <newAccessToken>`, and the
caller observes exactly the outcome of that retried request. -/
theorem gateway_refresh_success_retries_once (resps : Nat → ServerResp)
    (st : Store) (a r na nr : String)
    (ha : st.accessToken = some a) (hr : st.refreshToken = some r)
    (h0 : resps 0 = .err (some 401)) :
    (runRequest resps (some (na, nr)) st).store =
      { st with accessToken := some na, refreshToken := some nr } ∧
    (runRequest resps (some (na, nr)) st).issued =
      [⟨false, some ("Bearer " ++ a)⟩, ⟨true, some ("Bearer " ++ na)⟩] ∧
    (runRequest resps (some (na, nr)) st).refreshAttempts = 1 ∧
    (runRequest resps (some (na, nr)) st).outcome =
      (match resps 1 with
       | .ok => Outcome.success
       | .err s => Outcome.failure (.http s)) ∧
    (runRequest resps (some (na, nr)) st).navigatedHome = false := by
  obtain ⟨at_, rt, ia, u⟩ := st
  have ha' : at_ = some a := ha
  have hr' : rt = some r := hr
  subst ha'
  subst hr'
  cases h2 : resps 1 <;>
    · refine ⟨?_, ?_, ?_, ?_, ?_⟩ <;>
        simp [runRequest, dispatch, h0, h2, responseErrorInterceptor, attachAuth]

/-- Witness for C2: one `401` then success. -/
theorem gateway_refresh_success_retries_once_witness :
    (runRequest (fun n => if n = 0 then ServerResp.err (some 401) else .ok)
        (some ("na", "nr")) ⟨some "a", some "r", some "true", none⟩).store =
      ⟨some "na", some "nr", some "true", none⟩ ∧
    (runRequest (fun n => if n = 0 then ServerResp.err (some 401) else .ok)
        (some ("na", "nr")) ⟨some "a", some "r", some "true", none⟩).issued =
      [⟨false, some ("Bearer " ++ "a")⟩, ⟨true, some ("Bearer " ++ "na")⟩] ∧
    (runRequest (fun n => if n = 0 then ServerResp.err (some 401) else .ok)
        (some ("na", "nr")) ⟨some "a", some "r", some "true", none⟩).refreshAttempts = 1 ∧
    (runRequest (fun n => if n = 0 then ServerResp.err (some 401) else .ok)
        (some ("na", "nr")) ⟨some "a", some "r", some "true", none⟩).outcome =
      Outcome.success ∧
    (runRequest (fun n => if n = 0 then ServerResp.err (some 401) else .ok)
        (some ("na", "nr")) ⟨some "a", some "r", some "true", none⟩).navigatedHome = false :=
  gateway_refresh_success_retries_once _ _ "a" "r" "na" "nr" rfl rfl (by decide)

/-- Counterexample to claim C3 as stated: on a `401` whose refresh fails,
the interceptor runs `Promise.reject(refreshError)` (line 87), so the
caller receives the refresh error, not the original `401` error. -/
theorem gateway_refresh_failure_original_error_cex :
    (runRequest (fun _ => ServerResp.err (some 401)) none
        ⟨some "a", some "r", some "true", none⟩).outcome =
      Outcome.failure .refreshFailed ∧
    (runRequest (fun _ => ServerResp.err (some 401)) none
        ⟨some "a", some "r", some "true", none⟩).outcome ≠
      Outcome.failure (.http (some 401)) := by decide

/-- Claim C3 (amended): when a request gets a `401` and the refresh
attempt fails (including when either stored token is missing), the
gateway clears the Token Store entirely and forces navigation to `/`;
the error propagated to the caller is the refresh-path error (the
missing-tokens error or the refresh call's rejection), not the original
`401` error. -/
theorem gateway_refresh_failure_clears_and_redirects (resps : Nat → ServerResp)
    (rr : Option (String × String)) (st : Store)
    (h0 : resps 0 = .err (some 401))
    (hfail : st.accessToken = none ∨ st.refreshToken = none ∨ rr = none) :
    (runRequest resps rr st).store = Store.clear ∧
    (runRequest resps rr st).navigatedHome = true ∧
    ((runRequest resps rr st).outcome = Outcome.failure .noTokens ∨
     (runRequest resps rr st).outcome = Outcome.failure .refreshFailed) ∧
    (runRequest resps rr st).outcome ≠ Outcome.failure (.http (some 401)) := by
  obtain ⟨at_, rt, ia, u⟩ := st
  cases at_ with
  | none =>
    cases rt with
    | none =>
      refine ⟨?_, ?_, ?_, ?_⟩ <;>
        simp [runRequest, dispatch, h0, responseErrorInterceptor, attachAuth]
    | some rv =>
      refine ⟨?_, ?_, ?_, ?_⟩ <;>
        simp [runRequest, dispatch, h0, responseErrorInterceptor, attachAuth]
  | some av =>
    cases rt with
    | none =>
      refine ⟨?_, ?_, ?_, ?_⟩ <;>
        simp [runRequest, dispatch, h0, responseErrorInterceptor, attachAuth]
    | some rv =>
      have hrr : rr = none := by
        rcases hfail with h | h | h
        · exact absurd h (by simp)
        · exact absurd h (by simp)
        · exact h
      subst hrr
      refine ⟨?_, ?_, ?_, ?_⟩ <;>
        simp [runRequest, dispatch, h0, responseErrorInterceptor, attachAuth]

/-- Witness for the amended C3: tokens present, refresh call fails. -/
theorem gateway_refresh_failure_clears_and_redirects_witness :
    (runRequest (fun _ => ServerResp.err (some 401)) none
        ⟨some "a", some "r", some "true", some "u"⟩).store = Store.clear ∧
    (runRequest (fun _ => ServerResp.err (some 401)) none
        ⟨some "a", some "r", some "true", some "u"⟩).navigatedHome = true ∧
    ((runRequest (fun _ => ServerResp.err (some 401)) none
        ⟨some "a", some "r", some "true", some "u"⟩).outcome =
          Outcome.failure .noTokens ∨
     (runRequest (fun _ => ServerResp.err (some 401)) none
        ⟨some "a", some "r", some "true", some "u"⟩).outcome =
          Outcome.failure .refreshFailed) ∧
    (runRequest (fun _ => ServerResp.err (some 401)) none
        ⟨some "a", some "r", some "true", some "u"⟩).outcome ≠
      Outcome.failure (.http (some 401)) :=
  gateway_refresh_failure_clears_and_redirects
    (fun _ => ServerResp.err (some 401)) none
    ⟨some "a", some "r", some "true", some "u"⟩ (by decide) (by simp)

/-! ### Buffer bounds, claim C4 -/

/-- Counterexample to claim C4 as stated: a snapshot fetch
(`fetchRecentAlerts`) stores the server payload without truncation, so a
snapshot of 51 alerts leaves 51 entries in the Alert buffer. -/
theorem alert_buffer_snapshot_overflow_cex :
    (fetchRecentAlertsUpdate (some (List.replicate 51 sampleAlert))).length = 51 ∧
    ¬(fetchRecentAlertsUpdate (some (List.replicate 51 sampleAlert))).length ≤ 50 := by
  constructor
  · simp [fetchRecentAlertsUpdate]
  · simp [fetchRecentAlertsUpdate]

/-- Claim C4 (amended): each incoming SSE alert or device event is
prepended (newest first) and the buffer truncated to the most recent 50,
so after any SSE update those buffers hold at most 50 entries; an
incoming sensor reading appended to the history keeps at most the most
recent 100.  The snapshot fetches, by contrast, replace the buffers with
the server payload untruncated, so the bounds are guaranteed only for
feed-event updates. -/
theorem sse_buffers_bounded (a : Alert) (e : DeviceEvent) (d : SensorData)
    (al : List Alert) (ev : List DeviceEvent) (hist : List SensorData) :
    (sseAlertUpdate a al).length ≤ 50 ∧
    (sseAlertUpdate a al).head? = some a ∧
    (sseDeviceEventUpdate e ev).length ≤ 50 ∧
    (sseDeviceEventUpdate e ev).head? = some e ∧
    (sseSensorHistoryUpdate d hist).length ≤ 100 ∧
    (sseSensorHistoryUpdate d hist).getLast? = some d := by
  refine ⟨?_, ?_, ?_, ?_, ?_, ?_⟩
  · simp [sseAlertUpdate]
  · simp [sseAlertUpdate]
  · simp [sseDeviceEventUpdate]
  · simp [sseDeviceEventUpdate]
  · simp only [sseSensorHistoryUpdate, sliceLast, List.length_drop]
    omega
  · have hk : hist.length + 1 - 100 ≤ hist.length := by omega
    have hlen : (hist ++ [d]).length = hist.length + 1 := by simp
    unfold sseSensorHistoryUpdate sliceLast
    rw [hlen, List.drop_append_of_le_length hk, List.getLast?_concat]

/-! ### Sensor feed lifecycle, claim C5 -/

lemma sensorFeedInv_init : SensorFeedInv initFeeds := by
  constructor <;> simp [initFeeds]

/-- Under the invariant, the effect cleanup closes every open sensor
connection. -/
lemma cleanupSensorEffect_empty (f : Feeds) (h : SensorFeedInv f) :
    (cleanupSensorEffect f).openSensor = [] ∧ (cleanupSensorEffect f).sensorRef = none := by
  obtain ⟨-, href⟩ := h
  unfold cleanupSensorEffect
  cases hr : f.sensorRef with
  | none =>
    have : f.openSensor = [] := by
      cases ho : f.openSensor with
      | nil => rfl
      | cons p l =>
        have := href p (by rw [ho]; exact List.mem_cons_self p l)
        rw [hr] at this
        cases this
    simp [this, hr]
  | some i =>
    constructor
    · unfold closeSensorConn
      rw [List.filter_eq_nil_iff]
      intro p hp
      have := href p hp
      rw [hr] at this
      simp at this
      simp [this]
    · rfl

/-- Without an access token, `setupSensorSSE` opens nothing. -/
lemma setupSensorSSE_none (d : String) (g : Feeds) :
    setupSensorSSE d none g = g := by
  unfold setupSensorSSE
  split <;> rfl

/-- On a state with no open sensor connection and a null ref,
`setupSensorSSE` opens exactly one connection for the selected device. -/
lemma setupSensorSSE_cleaned (d t : String) (g : Feeds)
    (h1 : g.openSensor = []) (h2 : g.sensorRef = none) (hd : ¬d = "") :
    setupSensorSSE d (some t) g =
      { g with openSensor := [(g.nextId, d)], sensorRef := some g.nextId,
               nextId := g.nextId + 1 } := by
  unfold setupSensorSSE
  rw [if_neg hd]
  simp [h1, h2]

lemma sensorEffect_inv (d : String) (auth : Bool) (tok : Option String) (f : Feeds)
    (h : SensorFeedInv f) : SensorFeedInv (sensorEffect d auth tok f) := by
  obtain ⟨h1, h2⟩ := cleanupSensorEffect_empty f h
  unfold sensorEffect
  by_cases hc : d ≠ "" ∧ auth = true
  · rw [if_pos hc]
    cases tok with
    | none =>
      rw [setupSensorSSE_none]
      exact ⟨by simp [h1], fun p hp => by rw [h1] at hp; cases hp⟩
    | some t =>
      rw [setupSensorSSE_cleaned d t _ h1 h2 hc.1]
      refine ⟨by simp, fun p hp => ?_⟩
      simp at hp
      simp [hp]
  · rw [if_neg hc]
    exact ⟨by simp [h1], fun p hp => by rw [h1] at hp; cases hp⟩

lemma runSelections_inv (sels : List (String × Bool × Option String)) (f : Feeds)
    (h : SensorFeedInv f) : SensorFeedInv (runSelections sels f) := by
  induction sels generalizing f with
  | nil => exact h
  | cons s rest ih =>
    exact ih _ (sensorEffect_inv s.1 s.2.1 s.2.2 f h)

/-- Under the invariant, an effect run for device `d` leaves open only
connections scoped to `d`. -/
lemma sensorEffect_device (d : String) (auth : Bool) (tok : Option String) (f : Feeds)
    (h : SensorFeedInv f) :
    ∀ p ∈ (sensorEffect d auth tok f).openSensor, p.2 = d := by
  obtain ⟨h1, h2⟩ := cleanupSensorEffect_empty f h
  unfold sensorEffect
  by_cases hc : d ≠ "" ∧ auth = true
  · rw [if_pos hc]
    cases tok with
    | none =>
      rw [setupSensorSSE_none]
      intro p hp
      rw [h1] at hp
      cases hp
    | some t =>
      rw [setupSensorSSE_cleaned d t _ h1 h2 hc.1]
      intro p hp
      simp at hp
      simp [hp]
  · rw [if_neg hc]
    intro p hp
    rw [h1] at hp
    cases hp

/-- Claim C5: over every sequence of device selections starting from the
initial state, at most one sensor feed is open at any time (the previous
device's feed is closed by the effect cleanup before a new one is
opened), no two sensor feeds for different devices are ever open
simultaneously, and after selecting device `d` every open sensor feed is
scoped to `d`. -/
theorem sensor_feed_at_most_one (sels : List (String × Bool × Option String)) :
    (runSelections sels initFeeds).openSensor.length ≤ 1 ∧
    (∀ p ∈ (runSelections sels initFeeds).openSensor,
      ∀ q ∈ (runSelections sels initFeeds).openSensor, p.2 = q.2) ∧
    (∀ d auth tok, ∀ p ∈ (runSelections (sels ++ [(d, auth, tok)]) initFeeds).openSensor,
      p.2 = d ∨ (d = "" ∨ auth = false)) := by
  have hinv := runSelections_inv sels initFeeds sensorFeedInv_init
  refine ⟨hinv.1, ?_, ?_⟩
  · intro p hp q hq
    have hlen := hinv.1
    cases ho : (runSelections sels initFeeds).openSensor with
    | nil => rw [ho] at hp; cases hp
    | cons x l =>
      cases l with
      | nil =>
        rw [ho] at hp hq
        simp at hp hq
        rw [hp, hq]
      | cons y l' => rw [ho] at hlen; simp at hlen
  · intro d auth tok p hp
    have hstep : runSelections (sels ++ [(d, auth, tok)]) initFeeds =
        sensorEffect d auth tok (runSelections sels initFeeds) := by
      unfold runSelections
      rw [List.foldl_append]
      rfl
    rw [hstep] at hp
    cases hauth : auth with
    | false => right; right; rfl
    | true =>
      by_cases hd : d = ""
      · right; left; exact hd
      · left
        have := sensorEffect_device d auth tok (runSelections sels initFeeds) hinv p hp
        exact this

/-- Witness for C5: selecting device A then device B leaves exactly the
one connection `(1, "devB")` open, and it is scoped to B. -/
theorem sensor_feed_at_most_one_witness :
    (runSelections [("devA", true, some "t")] initFeeds).openSensor.length ≤ 1 ∧
    ((0 : Nat), "devA").2 = ((0 : Nat), "devA").2 ∧
    (((1 : Nat), "devB").2 = "devB" ∨ ("devB" = "" ∨ (true = false))) :=
  ⟨(sensor_feed_at_most_one [("devA", true, some "t")]).1,
   (sensor_feed_at_most_one [("devA", true, some "t")]).2.1
     ((0 : Nat), "devA") (by decide) ((0 : Nat), "devA") (by decide),
   (sensor_feed_at_most_one [("devA", true, some "t")]).2.2 "devB" true (some "t")
     ((1 : Nat), "devB") (by decide)⟩

/-! ### Logout, claim C6 -/

lemma closeConn_self (l : List Nat) (i : Nat) (h : ∀ j ∈ l, i = j) :
    closeConn i l = [] := by
  unfold closeConn
  rw [List.filter_eq_nil_iff]
  intro j hj
  simp [(h j hj).symm]

lemma closeSensorConn_self (l : List (Nat × String)) (i : Nat)
    (h : ∀ p ∈ l, i = p.1) : closeSensorConn i l = [] := by
  unfold closeSensorConn
  rw [List.filter_eq_nil_iff]
  intro p hp
  simp [(h p hp).symm]

/-- Claim C6: whenever `logout` runs - whether or not the server logout
call succeeds - afterwards all three live feeds are closed, the Token
Store is empty, and the session is logged out. -/
theorem logout_closes_feeds_and_clears_store (serverLogoutOk : Bool) (s : SessionState)
    (h : RefsHeld s.feeds) :
    (handleLogout serverLogoutOk s).feeds.openAlerts = [] ∧
    (handleLogout serverLogoutOk s).feeds.openEvents = [] ∧
    (handleLogout serverLogoutOk s).feeds.openSensor = [] ∧
    (handleLogout serverLogoutOk s).feeds.alertsRef = none ∧
    (handleLogout serverLogoutOk s).feeds.eventsRef = none ∧
    (handleLogout serverLogoutOk s).feeds.sensorRef = none ∧
    (handleLogout serverLogoutOk s).store = Store.clear ∧
    (handleLogout serverLogoutOk s).isAuthenticated = false ∧
    (handleLogout serverLogoutOk s).user = none := by
  obtain ⟨ha, he, hs⟩ := h
  refine ⟨?_, ?_, ?_, rfl, rfl, rfl, rfl, rfl, rfl⟩
  · show (match s.feeds.alertsRef with
      | some i => closeConn i s.feeds.openAlerts
      | none => s.feeds.openAlerts) = []
    cases hr : s.feeds.alertsRef with
    | none =>
      cases ho : s.feeds.openAlerts with
      | nil => rfl
      | cons x l =>
        have := ha x (by rw [ho]; exact List.mem_cons_self x l)
        rw [hr] at this
        cases this
    | some i =>
      exact closeConn_self _ _ fun j hj => by
        have := ha j hj
        rw [hr] at this
        exact Option.some_inj.mp this
  · show (match s.feeds.eventsRef with
      | some i => closeConn i s.feeds.openEvents
      | none => s.feeds.openEvents) = []
    cases hr : s.feeds.eventsRef with
    | none =>
      cases ho : s.feeds.openEvents with
      | nil => rfl
      | cons x l =>
        have := he x (by rw [ho]; exact List.mem_cons_self x l)
        rw [hr] at this
        cases this
    | some i =>
      exact closeConn_self _ _ fun j hj => by
        have := he j hj
        rw [hr] at this
        exact Option.some_inj.mp this
  · show (match s.feeds.sensorRef with
      | some i => closeSensorConn i s.feeds.openSensor
      | none => s.feeds.openSensor) = []
    cases hr : s.feeds.sensorRef with
    | none =>
      cases ho : s.feeds.openSensor with
      | nil => rfl
      | cons x l =>
        have := hs x (by rw [ho]; exact List.mem_cons_self x l)
        rw [hr] at this
        cases this
    | some i =>
      exact closeSensorConn_self _ _ fun p hp => by
        have := hs p hp
        rw [hr] at this
        exact Option.some_inj.mp this

/-- Witness for C6: a session with all three feeds open and a failing
server logout call. -/
theorem logout_closes_feeds_and_clears_store_witness :
    (handleLogout false ⟨⟨3, [0], [1], [(2, "devA")], some 0, some 1, some 2⟩,
      ⟨some "a", some "r", some "true", some "u"⟩, true, some "u"⟩).feeds.openAlerts = [] ∧
    (handleLogout false ⟨⟨3, [0], [1], [(2, "devA")], some 0, some 1, some 2⟩,
      ⟨some "a", some "r", some "true", some "u"⟩, true, some "u"⟩).feeds.openEvents = [] ∧
    (handleLogout false ⟨⟨3, [0], [1], [(2, "devA")], some 0, some 1, some 2⟩,
      ⟨some "a", some "r", some "true", some "u"⟩, true, some "u"⟩).feeds.openSensor = [] ∧
    (handleLogout false ⟨⟨3, [0], [1], [(2, "devA")], some 0, some 1, some 2⟩,
      ⟨some "a", some "r", some "true", some "u"⟩, true, some "u"⟩).feeds.alertsRef = none ∧
    (handleLogout false ⟨⟨3, [0], [1], [(2, "devA")], some 0, some 1, some 2⟩,
      ⟨some "a", some "r", some "true", some "u"⟩, true, some "u"⟩).feeds.eventsRef = none ∧
    (handleLogout false ⟨⟨3, [0], [1], [(2, "devA")], some 0, some 1, some 2⟩,
      ⟨some "a", some "r", some "true", some "u"⟩, true, some "u"⟩).feeds.sensorRef = none ∧
    (handleLogout false ⟨⟨3, [0], [1], [(2, "devA")], some 0, some 1, some 2⟩,
      ⟨some "a", some "r", some "true", some "u"⟩, true, some "u"⟩).store = Store.clear ∧
    (handleLogout false ⟨⟨3, [0], [1], [(2, "devA")], some 0, some 1, some 2⟩,
      ⟨some "a", some "r", some "true", some "u"⟩, true, some "u"⟩).isAuthenticated = false ∧
    (handleLogout false ⟨⟨3, [0], [1], [(2, "devA")], some 0, some 1, some 2⟩,
      ⟨some "a", some "r", some "true", some "u"⟩, true, some "u"⟩).user = none :=
  logout_closes_feeds_and_clears_store false
    ⟨⟨3, [0], [1], [(2, "devA")], some 0, some 1, some 2⟩,
      ⟨some "a", some "r", some "true", some "u"⟩, true, some "u"⟩
    ⟨by decide, by decide, by decide⟩

/-! ### Parse failures, claim C9 -/

/-- Claim C9: a live-feed event whose payload fails to parse leaves the
whole view state (alert buffer, device-event buffer, latest sensor data,
sensor history) and all feed connections completely unchanged, for each
of the three handlers. -/
theorem onmessage_parse_failure_is_noop (t : String) (s : ViewState × Feeds) :
    alertsOnMessage none s = s ∧
    eventsOnMessage none s = s ∧
    sensorOnMessage t none s = s :=
  ⟨rfl, rfl, rfl⟩

/-! ### Login failures, claim C7 -/

/-- Counterexample to claim C7 as stated: a login failure other than a
message-less 404 need not show a generic message - a server-provided
`message` is shown verbatim.  A 500 whose body says "Database exploded"
shows exactly that text, which is none of the fixed generic strings of
the component. -/
theorem login_error_message_cex :
    (handleLogin (.axiosErr (some 500) (some "Database exploded"))
      ⟨Store.clear, "", false⟩).errorMsg = "Database exploded" ∧
    (handleLogin (.axiosErr (some 500) (some "Database exploded"))
      ⟨Store.clear, "", false⟩).errorMsg ≠ "Login failed, please try again." ∧
    (handleLogin (.axiosErr (some 500) (some "Database exploded"))
      ⟨Store.clear, "", false⟩).errorMsg ≠ "Unexpected error occurred." ∧
    (handleLogin (.axiosErr (some 500) (some "Database exploded"))
      ⟨Store.clear, "", false⟩).errorMsg ≠ "Unexpected response from server." ∧
    (handleLogin (.axiosErr (some 500) (some "Database exploded"))
      ⟨Store.clear, "", false⟩).errorMsg ≠ "Invalid username or password" := by
  refine ⟨rfl, ?_, ?_, ?_, ?_⟩ <;> decide

/-- Claim C7 (amended): a login failure with HTTP 404 and no
server-provided message shows exactly "Invalid username or password";
any other failure without a server-provided message shows a fixed
generic message; a failure carrying a non-empty server message shows
that message verbatim; and every failure leaves the Token Store and the
session (logged-out) state unchanged. -/
theorem login_failure_messages (s : LoginState) (status : Option Nat) (m : String)
    (hm : m ≠ "") (h404 : status ≠ some 404) :
    (handleLogin (.axiosErr (some 404) none) s).errorMsg = "Invalid username or password" ∧
    (handleLogin (.axiosErr status none) s).errorMsg = "Login failed, please try again." ∧
    (∀ st2 : Option Nat, (handleLogin (.axiosErr st2 (some m)) s).errorMsg = m) ∧
    (handleLogin .otherErr s).errorMsg = "Unexpected error occurred." ∧
    (∀ out, isLoginSuccess out = false →
      (handleLogin out s).store = s.store ∧ (handleLogin out s).loggedIn = s.loggedIn) := by
  refine ⟨?_, ?_, ?_, rfl, ?_⟩
  · simp [handleLogin, loginFailureMessage, jsOr]
  · simp [handleLogin, loginFailureMessage, jsOr, h404]
  · intro st2
    simp [handleLogin, loginFailureMessage, jsOr, hm]
  · intro out hout
    cases out with
    | resp status hasData tokens =>
      obtain ⟨a, r⟩ := tokens
      simp only [isLoginSuccess] at hout
      simp [handleLogin, hout]
    | axiosErr status msg => exact ⟨rfl, rfl⟩
    | otherErr => exact ⟨rfl, rfl⟩

/-- Witness for the amended C7: a message-less 404 and 500, plus a
server message shown verbatim both on a 404 and on a 500. -/
theorem login_failure_messages_witness :
    (handleLogin (.axiosErr (some 404) none) ⟨Store.clear, "", false⟩).errorMsg =
      "Invalid username or password" ∧
    (handleLogin (.axiosErr (some 500) none) ⟨Store.clear, "", false⟩).errorMsg =
      "Login failed, please try again." ∧
    (handleLogin (.axiosErr (some 404) (some "boom")) ⟨Store.clear, "", false⟩).errorMsg =
      "boom" ∧
    (handleLogin (.axiosErr (some 500) (some "boom")) ⟨Store.clear, "", false⟩).errorMsg =
      "boom" ∧
    (handleLogin (.axiosErr (some 500) (some "boom")) ⟨Store.clear, "", false⟩).store =
      Store.clear :=
  have h := login_failure_messages ⟨Store.clear, "", false⟩ (some 500) "boom"
    (by decide) (by decide)
  ⟨h.1, h.2.1, h.2.2.1 (some 404), h.2.2.1 (some 500),
   (h.2.2.2.2 (.axiosErr (some 500) (some "boom")) (by decide)).1⟩

/-! ### Device creation, claims C8 and C10 -/

/-- Claim C8: adding a device whose id already exists (server 409) shows
exactly "Device ID already exists!" and leaves the device list, the
form, the panel and the refetch count untouched. -/
theorem add_device_conflict_leaves_list_unchanged (out : AddDeviceOutcome)
    (fetched : List Device) (s : DevicesPanelState)
    (hid : s.newDevice.deviceId ≠ "") (hname : s.newDevice.name ≠ "")
    (hloc : s.newDevice.location ≠ "") (hout : out = .axiosErr (some 409)) :
    handleAddDevice out fetched s = { s with alertMsg := some "Device ID already exists!" } := by
  subst hout
  unfold handleAddDevice
  rw [if_neg (by simp [hid, hname, hloc])]
  rfl

/-- Witness for C8. -/
theorem add_device_conflict_leaves_list_unchanged_witness :
    handleAddDevice (.axiosErr (some 409)) []
        ⟨[⟨"d0", "n0", "l0", "Active", "TemperatureSensor", none⟩],
          ⟨"d1", "n1", "l1", "TemperatureSensor", "Active"⟩, true, none, 0⟩ =
      ⟨[⟨"d0", "n0", "l0", "Active", "TemperatureSensor", none⟩],
        ⟨"d1", "n1", "l1", "TemperatureSensor", "Active"⟩, true,
        some "Device ID already exists!", 0⟩ :=
  add_device_conflict_leaves_list_unchanged (.axiosErr (some 409)) []
    ⟨[⟨"d0", "n0", "l0", "Active", "TemperatureSensor", none⟩],
      ⟨"d1", "n1", "l1", "TemperatureSensor", "Active"⟩, true, none, 0⟩
    (by decide) (by decide) (by decide) rfl

/-- Claim C10: with a valid form, a non-throwing response triggers the
success path (refetch devices, reset the form, close the panel) exactly
when its status is 204; any other non-error status leaves the whole
panel state - form, panel flag, device list, alert and refetch count -
untouched. -/
theorem add_device_success_only_on_204 (fetched : List Device)
    (s : DevicesPanelState) (status : Nat)
    (hid : s.newDevice.deviceId ≠ "") (hname : s.newDevice.name ≠ "")
    (hloc : s.newDevice.location ≠ "") :
    (status = 204 →
      handleAddDevice (.resp status) fetched s =
        ⟨fetched, defaultNewDevice, false, some "Device added successfully!",
          s.refetchCount + 1⟩) ∧
    (status ≠ 204 → handleAddDevice (.resp status) fetched s = s) := by
  constructor
  · intro h204
    subst h204
    unfold handleAddDevice
    rw [if_neg (by simp [hid, hname, hloc])]
    rfl
  · intro hne
    unfold handleAddDevice
    rw [if_neg (by simp [hid, hname, hloc])]
    simp [hne]

/-- Witness for C10 at statuses 204 and 201. -/
theorem add_device_success_only_on_204_witness :
    handleAddDevice (.resp 204) []
        ⟨[], ⟨"d1", "n1", "l1", "TemperatureSensor", "Active"⟩, true, none, 0⟩ =
      ⟨[], defaultNewDevice, false, some "Device added successfully!", 1⟩ ∧
    handleAddDevice (.resp 201) []
        ⟨[], ⟨"d1", "n1", "l1", "TemperatureSensor", "Active"⟩, true, none, 0⟩ =
      ⟨[], ⟨"d1", "n1", "l1", "TemperatureSensor", "Active"⟩, true, none, 0⟩ :=
  ⟨(add_device_success_only_on_204 []
      ⟨[], ⟨"d1", "n1", "l1", "TemperatureSensor", "Active"⟩, true, none, 0⟩ 204
      (by decide) (by decide) (by decide)).1 rfl,
   (add_device_success_only_on_204 []
      ⟨[], ⟨"d1", "n1", "l1", "TemperatureSensor", "Active"⟩, true, none, 0⟩ 201
      (by decide) (by decide) (by decide)).2 (by decide)⟩

end IotPlatform
